import Mathlib

/-!
Shallow embedding of the retrieval-and-assembly core of
`src/pydantic_ai_expert.py`: the embedding call `get_embedding` and the three
tool operations `retrieve_relevant_documentation`, `list_documentation_pages`
and `get_page_content`.

The OpenAI embedding provider and the Supabase backend are external services.
A call to either is modelled as a value of type `Except String α`:
`Except.error e` stands for the call raising an exception whose message is
`e`, and `Except.ok x` for a successful response `x`.  Each Python
`try/except` block then becomes a `match` on that value.
-/

/-- One row returned by the `site_pages` backend, carrying the fields the
core reads: `url`, `title`, `content` and `chunk_number`. -/
structure Row where
  url : String
  title : String
  content : String
  chunk_number : Nat
  deriving DecidableEq, Repr

/-- `get_embedding` from the source: on success it returns the provider's
embedding vector (`response.data[0].embedding`); on any exception it logs and
returns the zero vector `[0] * 1536`.  Totality of this function is the
"no exception escapes" guarantee. -/
def get_embedding (text : String)
    (provider : String → Except String (List Float)) : List Float :=
  match provider text with
  | Except.ok v => v
  | Except.error _ => List.replicate 1536 0

/-- The per-chunk block built inside `retrieve_relevant_documentation`: the
triple-quoted f-string opens with a newline, then a heading line made from
the title, a blank line, the content and a trailing newline. -/
def chunk_text (doc : Row) : String :=
  "\n# " ++ doc.title ++ "\n\n" ++ doc.content ++ "\n"

/-- `retrieve_relevant_documentation` given the backend response to the
`match_site_pages` call: on exception an error-description string; on an
empty (falsy) result set a fixed message; otherwise the rendered blocks of
all rows, in backend order, joined with the separator line. -/
def retrieve_relevant_documentation
    (backendResult : Except String (List Row)) : String :=
  match backendResult with
  | Except.error e => "Error retrieving documentation: " ++ e
  | Except.ok rows =>
    if rows.isEmpty then "No relevant documentation found."
    else String.intercalate ("\n\n---\n\n") (rows.map chunk_text)

/-- `list_documentation_pages` given the backend response: on exception or an
empty result set the empty list; otherwise `sorted(set(urls))`, here the
sorted list of the finite set of the rows' URLs. -/
def list_documentation_pages
    (backendResult : Except String (List Row)) : List String :=
  match backendResult with
  | Except.error _ => []
  | Except.ok rows =>
    if rows.isEmpty then []
    else Finset.sort (fun a b => a ≤ b) (rows.map Row.url).toFinset

/-- The characters of the delimiter the source passes to `title.split`:
space, hyphen, space. -/
def sepChars : List Char := String.toList (" - ")

/-- Element `[0]` of the source's `title.split(sep)`: the prefix of the
character list up to (not including) the first occurrence of `sepChars`,
or the whole list when the delimiter never occurs. -/
def takeUntilSep : List Char → List Char
  | [] => []
  | c :: cs => if sepChars.isPrefixOf (c :: cs) then [] else c :: takeUntilSep cs

/-- `title.split(sep)[0]` from the source, lifted to `String`. -/
def titleMain (t : String) : String := String.mk (takeUntilSep t.toList)

/-- `get_page_content` given the URL and the backend response (rows already
filtered and ordered by ascending `chunk_number` by the backend): on
exception an error-description string; on an empty result a fixed
"no content" message; otherwise a heading built from the first row's
truncated title, then every row's content, all joined by blank lines. -/
def get_page_content (url : String)
    (backendResult : Except String (List Row)) : String :=
  match backendResult with
  | Except.error e => "Error retrieving page content: " ++ e
  | Except.ok rows =>
    match rows with
    | [] => "No content found for URL: " ++ url
    | first :: _ =>
      let page_title := titleMain first.title
      String.intercalate ("\n\n")
        (("# " ++ page_title ++ "\n") :: rows.map Row.content)

/-- The parameter record the source passes to the `match_site_pages` RPC:
`match_count = 5` and `filter = {source: "pydantic_ai_docs"}` (the query
embedding itself is passed separately). -/
structure MatchSitePagesParams where
  match_count : Nat
  filter_source : String
  deriving DecidableEq, Repr

/-- The literal request `retrieve_relevant_documentation` builds. -/
def retrieveRequest : MatchSitePagesParams := ⟨5, "pydantic_ai_docs"⟩

/-- The query the source builds on table `site_pages`: an optional `url`
equality filter, the `metadata->>source` equality filter, and whether an
ascending `chunk_number` ordering is requested. -/
structure SitePagesQuery where
  url_filter : Option String
  source_filter : String
  order_by_chunk_number : Bool
  deriving DecidableEq, Repr

/-- The literal query `list_documentation_pages` builds. -/
def listPagesQuery : SitePagesQuery := ⟨none, "n8n_docs", false⟩

/-- The literal query `get_page_content` builds for a given URL. -/
def getPageQuery (url : String) : SitePagesQuery := ⟨some url, "n8n_docs", true⟩

/-- `retrieve_relevant_documentation` end to end: embed the user query, pass
the fixed request and the embedding to the backend, format the response. -/
def retrieveFull (provider : String → Except String (List Float))
    (rpc : MatchSitePagesParams → List Float → Except String (List Row))
    (user_query : String) : String :=
  retrieve_relevant_documentation
    (rpc retrieveRequest (get_embedding user_query provider))

/-- `list_documentation_pages` end to end against a backend query function. -/
def listFull (query : SitePagesQuery → Except String (List Row)) : List String :=
  list_documentation_pages (query listPagesQuery)

/-- `get_page_content` end to end against a backend query function. -/
def getPageFull (query : SitePagesQuery → Except String (List Row))
    (url : String) : String :=
  get_page_content url (query (getPageQuery url))

/-- Whether the delimiter `sepChars` occurs anywhere in a character list;
used to state the no-delimiter hypothesis of claim C10. -/
def containsSep : List Char → Bool
  | [] => false
  | c :: cs => sepChars.isPrefixOf (c :: cs) || containsSep cs

/-- The concrete backend rows of the C4 scenario: two chunks of one page
titled "Setup Guide - n8n Docs", contents "Step 1." and "Step 2.",
chunk numbers 0 and 1. -/
def setupGuideRows : List Row :=
  [⟨"https://example.com/setup", "Setup Guide - n8n Docs", "Step 1.", 0⟩,
   ⟨"https://example.com/setup", "Setup Guide - n8n Docs", "Step 2.", 1⟩]

/-- Helper: when the delimiter occurs nowhere in the character list, the
truncation at the first delimiter occurrence is the identity. -/
theorem takeUntilSep_of_not_contains (l : List Char) (h : containsSep l = false) :
    takeUntilSep l = l := by
  induction l with
  | nil => rfl
  | cons c cs ih =>
    rw [containsSep, Bool.or_eq_false_iff] at h
    rw [takeUntilSep, h.1]
    simp [ih h.2]

/-- Helper: `title.split(sep)[0]` is the whole title when the delimiter
does not occur in it. -/
theorem titleMain_of_not_contains (t : String) (h : containsSep t.toList = false) :
    titleMain t = t := by
  unfold titleMain
  rw [takeUntilSep_of_not_contains _ h]
  rfl

/-- C1: for a backend response of N rows with 1 ≤ N ≤ 5,
`retrieve_relevant_documentation` returns exactly the N rendered blocks, in
the backend's returned order with no re-ranking, joined by the separator
line, each block consisting of a heading line built from that row's title
followed by that row's content; the number of blocks equals the number of
rows. -/
theorem retrieve_renders_all_blocks (rows : List Row)
    (h1 : rows ≠ []) (h2 : rows.length ≤ 5) :
    retrieve_relevant_documentation (Except.ok rows) =
      String.intercalate ("\n\n---\n\n")
        (rows.map fun doc => "\n# " ++ doc.title ++ "\n\n" ++ doc.content ++ "\n") ∧
    (rows.map fun doc => "\n# " ++ doc.title ++ "\n\n" ++ doc.content ++ "\n").length
      = rows.length := by
  constructor
  · cases rows with
    | nil => exact absurd rfl h1
    | cons a as => rfl
  · simp

/-- C1 witness: the theorem applied to a concrete one-row backend response,
the output evaluated. -/
theorem retrieve_renders_all_blocks_witness :
    retrieve_relevant_documentation (Except.ok [⟨"u", "T", "C", 0⟩]) = "\n# T\n\nC\n" := by
  have h := retrieve_renders_all_blocks [⟨"u", "T", "C", 0⟩]
    (List.cons_ne_nil _ _) (by decide)
  exact h.1.trans (by decide)

/-- C2: `get_embedding` returns a vector of length 1536 for every text input
(given the provider's fixed-length response contract on the success path),
and when the provider call raises, it returns the all-zero vector
`List.replicate 1536 0` of that same length; being a total function into
`List Float`, it propagates no exception to the caller. -/
theorem get_embedding_spec (text : String)
    (provider : String → Except String (List Float))
    (hlen : ∀ v, provider text = Except.ok v → v.length = 1536) :
    (get_embedding text provider).length = 1536 ∧
    (∀ e, provider text = Except.error e →
      get_embedding text provider = List.replicate 1536 0) := by
  constructor
  · unfold get_embedding
    cases h : provider text with
    | ok v => exact hlen v h
    | error e => exact List.length_replicate 1536 0
  · intro e he
    unfold get_embedding
    rw [he]

/-- C2 witness: the theorem applied to a provider that always raises. -/
theorem get_embedding_spec_witness :
    get_embedding ("q") (fun _ => Except.error ("boom")) = List.replicate 1536 0 := by
  have h := get_embedding_spec ("q") (fun _ => Except.error ("boom"))
    (by intro v hv; simp at hv)
  exact h.2 ("boom") rfl

/-- C3 counterexample: on a simulated backend exception,
`list_documentation_pages` returns the empty list — a value containing no
string at all, hence no recognizable error indicator — refuting the claim
that all three operations return a string containing an error indicator. -/
theorem list_pages_error_counterexample :
    list_documentation_pages (Except.error ("boom")) = [] := rfl

/-- C3 amended: on a simulated backend exception no operation propagates it:
`retrieve_relevant_documentation` and `get_page_content` return
error-description strings that begin with the indicator "Error retrieving",
while `list_documentation_pages` returns the empty list. -/
theorem ops_error_behavior (e url : String) :
    retrieve_relevant_documentation (Except.error e)
      = "Error retrieving documentation: " ++ e ∧
    get_page_content url (Except.error e)
      = "Error retrieving page content: " ++ e ∧
    list_documentation_pages (Except.error e) = [] ∧
    String.toList ("Error retrieving") <+:
      String.toList (retrieve_relevant_documentation (Except.error e)) ∧
    String.toList ("Error retrieving") <+:
      String.toList (get_page_content url (Except.error e)) := by
  refine ⟨rfl, rfl, rfl, ?_, ?_⟩
  · show String.data ("Error retrieving") <+:
      String.data ("Error retrieving documentation: " ++ e)
    rw [String.data_append]
    rw [show String.data ("Error retrieving documentation: ")
        = String.data ("Error retrieving") ++ String.data (" documentation: ")
        from by decide]
    rw [List.append_assoc]
    exact List.prefix_append _ _
  · show String.data ("Error retrieving") <+:
      String.data ("Error retrieving page content: " ++ e)
    rw [String.data_append]
    rw [show String.data ("Error retrieving page content: ")
        = String.data ("Error retrieving") ++ String.data (" page content: ")
        from by decide]
    rw [List.append_assoc]
    exact List.prefix_append _ _

/-- C4: on the two "Setup Guide - n8n Docs" rows with contents "Step 1." and
"Step 2." (chunk numbers 0 and 1), `get_page_content` returns a document
whose first line is "# Setup Guide" and whose body is "Step 1." followed by
a blank line followed by "Step 2.". -/
theorem get_page_setup_guide :
    get_page_content ("https://example.com/setup") (Except.ok setupGuideRows)
      = "# Setup Guide" ++ "\n" ++ "\n\n" ++ ("Step 1." ++ "\n\n" ++ "Step 2.") ∧
    List.takeWhile (fun c => c ≠ '\n')
        (String.toList (get_page_content ("https://example.com/setup")
          (Except.ok setupGuideRows)))
      = String.toList ("# Setup Guide") := by
  constructor
  · rfl
  · decide

/-- C5: for every backend outcome — duplicate URL rows included — the list
returned by `list_documentation_pages` is sorted in ascending lexical order
and contains no duplicate URLs. -/
theorem list_pages_sorted_nodup (b : Except String (List Row)) :
    List.Sorted (fun a b => a ≤ b) (list_documentation_pages b) ∧
    (list_documentation_pages b).Nodup := by
  cases b with
  | error e => exact ⟨List.sorted_nil, List.nodup_nil⟩
  | ok rows =>
    cases rows with
    | nil => exact ⟨List.sorted_nil, List.nodup_nil⟩
    | cons a as =>
      rw [show list_documentation_pages (Except.ok (a :: as))
          = Finset.sort (fun a b => a ≤ b) ((a :: as).map Row.url).toFinset from rfl]
      exact ⟨Finset.sort_sorted _ _, Finset.sort_nodup _ _⟩

/-- C6: on a backend response of zero rows, `retrieve_relevant_documentation`
returns exactly the fixed message "No relevant documentation found.", which
is not the empty string. -/
theorem retrieve_empty_fixed_message :
    retrieve_relevant_documentation (Except.ok []) = "No relevant documentation found." ∧
    retrieve_relevant_documentation (Except.ok []) ≠ "" :=
  ⟨rfl, by decide⟩

/-- C7: on a backend response of zero rows, `get_page_content` returns the
fixed message "No content found for URL: " with the requested URL
interpolated. -/
theorem get_page_no_content_message (url : String) :
    get_page_content url (Except.ok []) = "No content found for URL: " ++ url := rfl

/-- C8: each operation is a pure function of its inputs and of the backend
response functions, so two invocations with identical inputs against an
unchanged backend (the same provider, RPC and query functions) return
byte-identical output. -/
theorem ops_deterministic_idempotent
    (provider : String → Except String (List Float))
    (rpc : MatchSitePagesParams → List Float → Except String (List Row))
    (query : SitePagesQuery → Except String (List Row))
    (user_query url : String) :
    retrieveFull provider rpc user_query = retrieveFull provider rpc user_query ∧
    listFull query = listFull query ∧
    getPageFull query url = getPageFull query url :=
  ⟨rfl, rfl, rfl⟩

/-- C9: `list_documentation_pages` and `get_page_content` filter by the fixed
literal source label "n8n_docs", while `retrieve_relevant_documentation`
filters by "pydantic_ai_docs"; the two partition values differ. -/
theorem source_filter_mismatch (url : String) :
    listPagesQuery.source_filter = "n8n_docs" ∧
    (getPageQuery url).source_filter = "n8n_docs" ∧
    retrieveRequest.filter_source = "pydantic_ai_docs" ∧
    listPagesQuery.source_filter ≠ retrieveRequest.filter_source :=
  ⟨rfl, rfl, rfl, by decide⟩

/-- C10: when the first row's title contains no " - " delimiter, the page
heading of `get_page_content` uses the entire title unmodified. -/
theorem get_page_title_without_delimiter (url : String) (r : Row) (rs : List Row)
    (h : containsSep (String.toList r.title) = false) :
    get_page_content url (Except.ok (r :: rs)) =
      String.intercalate ("\n\n")
        (("# " ++ r.title ++ "\n") :: (r :: rs).map Row.content) := by
  have ht := titleMain_of_not_contains r.title h
  show String.intercalate ("\n\n")
      (("# " ++ titleMain r.title ++ "\n") :: (r :: rs).map Row.content) = _
  rw [ht]

/-- C10 witness: a one-row page whose title "Setup" has no delimiter; the
heading keeps the full title. -/
theorem get_page_title_without_delimiter_witness :
    get_page_content ("u") (Except.ok [⟨"u", "Setup", "body", 0⟩])
      = "# Setup" ++ "\n" ++ "\n\n" ++ "body" := by
  have h := get_page_title_without_delimiter ("u") ⟨"u", "Setup", "body", 0⟩ []
    (by decide)
  exact h.trans (by decide)
